import Mathlib

/-!
# Verification of the donk-project context-relay core

A shallow embedding, in Lean 4, of the plugin-driven context relay of the
donk-project repository:

* `src/hq-pi/flask_app/context_store.py`   — the in-memory `ContextStore`;
* `src/hq-pi/flask_app/plugin_loader.py`   — manifest validation and plugin loading;
* `src/hq-pi/flask_app/main.py`            — the WebSocket message handlers (router);
* `src/shared/protocol.py`                 — message validation and constructors;
* `src/collector/context_aggregator.py`    — the agent-side aggregation loop;
* `src/collector/plugins/youtube/collector.py` — the sensor plugin's `get_context`.

Python dictionaries are embedded as association lists keyed by `String`
(first binding wins, mirroring unique-key dicts); Python `None`/absent values
obtained through `dict.get` are embedded as `Option`; exceptions raised by
plugin callbacks are embedded as `Except` values consumed at the call sites
that catch them; wall-clock instants (`time.time()`) are embedded as integers.
-/

set_option autoImplicit false

namespace Donk

/-! ## Association-list helpers (Python `dict` operations) -/

/-- Lookup `d.get(k)`: the value bound to `k`, if any. -/
def alistGet {β : Type} (k : String) : List (String × β) → Option β
  | [] => Option.none
  | (k', v) :: rest => if k' = k then some v else alistGet k rest

/-- Update `d[k] = v`: bind `k` to `v`, replacing an existing binding in place. -/
def alistSet {β : Type} (k : String) (v : β) : List (String × β) → List (String × β)
  | [] => [(k, v)]
  | (k', v') :: rest => if k' = k then (k, v) :: rest else (k', v') :: alistSet k v rest

/-- Deletion `del d[k]`: drop every binding of `k`. -/
def alistRemove {β : Type} (k : String) : List (String × β) → List (String × β)
  | [] => []
  | (k', v') :: rest => if k' = k then alistRemove k rest else (k', v') :: alistRemove k rest

theorem alistGet_set_self {β : Type} (k : String) (v : β) (l : List (String × β)) :
    alistGet k (alistSet k v l) = some v := by
  induction l with
  | nil => simp [alistGet, alistSet]
  | cons hd tl ih =>
    obtain ⟨k', v'⟩ := hd
    by_cases h : k' = k <;> simp [alistGet, alistSet, h, ih]

theorem alistGet_set_ne {β : Type} (k k' : String) (v : β) (l : List (String × β))
    (h : k' ≠ k) : alistGet k (alistSet k' v l) = alistGet k l := by
  induction l with
  | nil => simp [alistGet, alistSet, h]
  | cons hd tl ih =>
    obtain ⟨k'', v''⟩ := hd
    by_cases h2 : k'' = k'
    · subst h2
      simp [alistGet, alistSet, h]
    · by_cases h3 : k'' = k <;> simp [alistGet, alistSet, h2, h3, Ne.symm h, ih]

theorem alistGet_remove_self {β : Type} (k : String) (l : List (String × β)) :
    alistGet k (alistRemove k l) = Option.none := by
  induction l with
  | nil => simp [alistGet, alistRemove]
  | cons hd tl ih =>
    obtain ⟨k', v'⟩ := hd
    by_cases h : k' = k <;> simp [alistGet, alistRemove, h, ih]

theorem alistGet_remove_ne {β : Type} (k k' : String) (l : List (String × β))
    (h : k' ≠ k) : alistGet k (alistRemove k' l) = alistGet k l := by
  induction l with
  | nil => simp [alistRemove]
  | cons hd tl ih =>
    obtain ⟨k'', v''⟩ := hd
    by_cases h2 : k'' = k'
    · subst h2
      simp [alistGet, alistRemove, h, ih]
    · by_cases h3 : k'' = k <;> simp [alistGet, alistRemove, h2, h3, Ne.symm h, ih]

theorem alistGet_append {β : Type} (k : String) (l₁ l₂ : List (String × β)) :
    alistGet k (l₁ ++ l₂) =
      (match alistGet k l₁ with
       | some v => some v
       | Option.none => alistGet k l₂) := by
  induction l₁ with
  | nil => simp [alistGet]
  | cons hd tl ih =>
    obtain ⟨k', v'⟩ := hd
    by_cases h : k' = k <;> simp [alistGet, h, ih]

theorem alistGet_eq_none_iff {β : Type} (k : String) (l : List (String × β)) :
    alistGet k l = Option.none ↔ k ∉ l.map Prod.fst := by
  induction l with
  | nil => simp [alistGet]
  | cons hd tl ih =>
    obtain ⟨k', v'⟩ := hd
    by_cases h : k' = k <;> (simp [alistGet, h, ih]; try tauto)

theorem alistGet_mem_keys {β : Type} (k : String) (v : β) (l : List (String × β))
    (h : alistGet k l = some v) : k ∈ l.map Prod.fst := by
  induction l with
  | nil => simp [alistGet] at h
  | cons hd tl ih =>
    obtain ⟨k', v'⟩ := hd
    by_cases h2 : k' = k
    · subst h2; simp
    · simp [alistGet, h2] at h
      simp [ih h]

/-! ## Context payloads

A `context_update`'s `data` field as the handlers inspect it: Python `None`
(or an absent key), a `dict` — of which the handlers only test the truthiness
of its `'active'` entry, the rest being an opaque payload — or some other
(non-dict, non-`None`) value. -/

/-- The truthiness of `d.get('active')` together with the opaque remainder of
the dict payload. -/
structure PyDict where
  activeTruthy : Bool
  fields : List (String × String)
  deriving DecidableEq, Repr

inductive CtxData where
  | pyNone
  | pyDict (d : PyDict)
  | pyStr (s : String)
  deriving DecidableEq, Repr

/-! ## ContextStore (`src/hq-pi/flask_app/context_store.py`)

`self.store : {device_id: {plugin_id: {data, timestamp}}}`. -/

/-- One stored entry: `{"data": ..., "timestamp": ...}`. -/
structure CtxEntry where
  data : CtxData
  timestamp : String
  deriving DecidableEq, Repr

def ContextStore := List (String × List (String × CtxEntry))

/-- Embeds `ContextStore.update_context`. The `timestamp` argument defaults to the
current time (`now`) when `None`, as in the source. -/
def update_context (store : ContextStore) (device_id plugin_id : String)
    (data : CtxData) (timestamp : Option String) (now : String) : ContextStore :=
  let ts := timestamp.getD now
  let devMap := (alistGet device_id store).getD []
  alistSet device_id (alistSet plugin_id ⟨data, ts⟩ devMap) store

/-- Embeds `ContextStore.get_context`: `None` when the device is unknown;
for a *truthy* `plugin_id` (`if plugin_id:` — present and non-empty) the
entry `self.store[device_id].get(plugin_id)` (`Sum.inl`, absent entry =
`None`); for a falsy `plugin_id` (`None` or `""`) the whole device
sub-mapping (`Sum.inr`). -/
def get_context (store : ContextStore) (device_id : String)
    (plugin_id : Option String) : Option (CtxEntry ⊕ List (String × CtxEntry)) :=
  match alistGet device_id store with
  | Option.none => Option.none
  | some devMap =>
    match plugin_id with
    | some p =>
      if p = "" then some (Sum.inr devMap)
      else (alistGet p devMap).map Sum.inl
    | Option.none => some (Sum.inr devMap)

/-- Embeds `ContextStore.remove_plugin_context`: deletes the entry only when both the
device sub-dict and the plugin entry exist. -/
def remove_plugin_context (store : ContextStore) (device_id plugin_id : String) : ContextStore :=
  match alistGet device_id store with
  | Option.none => store
  | some devMap =>
    if (alistGet plugin_id devMap).isSome then
      alistSet device_id (alistRemove plugin_id devMap) store
    else
      store

/-- Embeds `ContextStore.get_all_context`. -/
def get_all_context (store : ContextStore) : ContextStore := store

theorem get_context_update_self (store : ContextStore) (d p : String)
    (data : CtxData) (ts : Option String) (now : String) (hp : p ≠ "") :
    get_context (update_context store d p data ts now) d (some p)
      = some (Sum.inl ⟨data, ts.getD now⟩) := by
  simp [get_context, update_context, alistGet_set_self, hp]

theorem get_context_remove_self (store : ContextStore) (d p : String)
    (hp : p ≠ "") :
    get_context (remove_plugin_context store d p) d (some p) = Option.none := by
  unfold remove_plugin_context
  cases h : alistGet d store with
  | none => simp [get_context, h]
  | some devMap =>
    by_cases h2 : (alistGet p devMap).isSome
    · simp [h2, get_context, alistGet_set_self, alistGet_remove_self, hp]
    · have h3 : alistGet p devMap = Option.none := Option.not_isSome_iff_eq_none.mp h2
      simp [get_context, h, h3, hp]

/-- Claim C7, counterexample. At the empty plugin id — which the claim's
universal quantification over plugin ids includes — the source's
`if plugin_id:` truthiness check routes `get_context` to the `else` branch:
an upsert under `plugin_id = ""` followed by a get of the same pair returns
the device sub-mapping, not the entry written; and a remove of the pair
followed by a get returns the (now empty) sub-mapping, not "missing".  Both
halves of the claim as stated are therefore false at this concrete input. -/
theorem claim_C7_counterexample :
    get_context
        (update_context [] "laptop-1" ""
          (CtxData.pyDict { activeTruthy := true, fields := [] }) (some "T1") "NOW")
        "laptop-1" (some "")
      = some (Sum.inr
          [("", { data := CtxData.pyDict { activeTruthy := true, fields := [] },
                  timestamp := "T1" })])
    ∧ get_context
        (update_context [] "laptop-1" ""
          (CtxData.pyDict { activeTruthy := true, fields := [] }) (some "T1") "NOW")
        "laptop-1" (some "")
      ≠ some (Sum.inl
          { data := CtxData.pyDict { activeTruthy := true, fields := [] },
            timestamp := "T1" })
    ∧ get_context
        (remove_plugin_context
          (update_context [] "laptop-1" ""
            (CtxData.pyDict { activeTruthy := true, fields := [] }) (some "T1") "NOW")
          "laptop-1" "")
        "laptop-1" (some "")
      = some (Sum.inr [])
    ∧ get_context
        (remove_plugin_context
          (update_context [] "laptop-1" ""
            (CtxData.pyDict { activeTruthy := true, fields := [] }) (some "T1") "NOW")
          "laptop-1" "")
        "laptop-1" (some "")
      ≠ Option.none :=
  ⟨rfl, by decide, rfl, by decide⟩

/-- Claim C7, amended. For every `device_id`, every **non-empty**
`plugin_id`, payload and timestamp, an upsert into the `ContextStore`
followed by a `get` for the same `(device_id, plugin_id)` returns exactly
the payload and timestamp written; and a `remove` of that pair followed by a
`get` returns missing — both for a remove right after the upsert and for a
remove on an arbitrary store — rather than any previously stored value.
(At an empty `plugin_id`, the source's truthiness check makes `get` return
the device sub-mapping instead, per the counterexample.) -/
theorem claim_C7 (store : ContextStore) (d p : String) (data : CtxData)
    (ts now : String) (hp : p ≠ "") :
    get_context (update_context store d p data (some ts) now) d (some p)
      = some (Sum.inl ⟨data, ts⟩)
    ∧ get_context
        (remove_plugin_context (update_context store d p data (some ts) now) d p)
        d (some p)
        = Option.none
    ∧ get_context (remove_plugin_context store d p) d (some p) = Option.none :=
  ⟨get_context_update_self store d p data (some ts) now hp,
   get_context_remove_self _ d p hp,
   get_context_remove_self store d p hp⟩

/-- Witness for C7: a round trip under the non-empty plugin id `"youtube"`. -/
theorem claim_C7_witness :
    get_context
        (update_context [] "laptop-1" "youtube"
          (CtxData.pyDict { activeTruthy := true, fields := [] }) (some "T1") "NOW")
        "laptop-1" (some "youtube")
      = some (Sum.inl
          { data := CtxData.pyDict { activeTruthy := true, fields := [] },
            timestamp := "T1" })
    ∧ get_context
        (remove_plugin_context
          (update_context [] "laptop-1" "youtube"
            (CtxData.pyDict { activeTruthy := true, fields := [] }) (some "T1") "NOW")
          "laptop-1" "youtube")
        "laptop-1" (some "youtube")
      = Option.none :=
  ⟨(claim_C7 [] "laptop-1" "youtube"
      (CtxData.pyDict { activeTruthy := true, fields := [] }) "T1" "NOW"
      (by decide)).1,
   (claim_C7 [] "laptop-1" "youtube"
      (CtxData.pyDict { activeTruthy := true, fields := [] }) "T1" "NOW"
      (by decide)).2.1⟩

/-! ## Wire messages (`src/shared/protocol.py`)

An inbound message is a JSON dict.  For the `type` and `timestamp` keys the
code distinguishes key *presence* (`"type" not in msg`) from the key's value
(`data.get('timestamp')`), so those two fields are embedded as
`Option (Option String)`: `none` = key absent, `some none` = key present with
value `None`, `some (some s)` = key present with string value.  The remaining
fields are only ever read through `dict.get`, which conflates absence with
`None`, so they are plain `Option`s. -/

structure Msg where
  type : Option (Option String) := Option.none
  timestamp : Option (Option String) := Option.none
  device_id : Option String := Option.none
  hostname : Option String := Option.none
  platform : Option String := Option.none
  plugin_id : Option String := Option.none
  data : CtxData := CtxData.pyNone
  command_id : Option String := Option.none
  args : Option (List (String × String)) := Option.none
  request_id : Option String := Option.none
  deriving DecidableEq, Repr

/-- Embeds `protocol.validate_message`: the argument is a dict (true by construction
here) carrying both a `"type"` and a `"timestamp"` key. -/
def validate_message (msg : Msg) : Bool :=
  msg.type.isSome && msg.timestamp.isSome

/-- Embeds `protocol.create_command`, plus the `request_id` passthrough that
`handle_send_command` adds to the created dict. -/
structure CommandMsg where
  device_id : String
  plugin_id : String
  command_id : String
  args : List (String × String)
  timestamp : String
  request_id : Option String
  deriving DecidableEq, Repr

/-! ## The hub's session table and outbound traffic (`src/hq-pi/flask_app/main.py`)

`connected_collectors : {session_id: {device_id, hostname, platform,
connected_at, session_id, last_heartbeat?}}`, keyed by the socket's `request.sid`. -/

structure CollectorInfo where
  device_id : Option String
  hostname : Option String
  platform : Option String
  connected_at : String
  session_id : String
  last_heartbeat : Option String
  deriving DecidableEq, Repr

/-- One element of the list built by `broadcast_collector_list`. -/
structure CollectorSummary where
  device_id : Option String
  hostname : Option String
  platform : Option String
  connected_at : String
  last_heartbeat : String
  session_id : String
  deriving DecidableEq, Repr

def collectorSummary (i : CollectorInfo) : CollectorSummary :=
  { device_id := i.device_id
    hostname := i.hostname
    platform := i.platform
    connected_at := i.connected_at
    last_heartbeat := i.last_heartbeat.getD i.connected_at
    session_id := i.session_id }

/-- Outbound messages produced by one handler invocation, in emission order.
`errorReply` and `registrationAck` go to the requesting connection only
(`emit`); `collectorList` and `pluginUpdate` are broadcast to all connections
(`socketio.emit`); `commandToAgent` goes to the named agent connection only
(`socketio.emit(..., room=sid)`). -/
inductive HubEvent where
  | errorReply (message : String) (details : Option String) (timestamp : String)
  | registrationAck (device_id : Option String) (timestamp : String)
  | collectorList (collectors : List CollectorSummary) (timestamp : String)
  | pluginUpdate (device_id plugin_id : String) (widgets : List String)
      (context : CtxData) (timestamp : Option String)
  | commandToAgent (sid : String) (cmd : CommandMsg)
  deriving DecidableEq, Repr

/-- The collector-list broadcast message (`broadcast_collector_list` +
`protocol.create_collector_list`). -/
def broadcast_collector_list (collectors : List (String × CollectorInfo))
    (now : String) : HubEvent :=
  HubEvent.collectorList (collectors.map (fun x => collectorSummary x.2)) now

/-! ## Renderer plugins (`src/hq-pi/flask_app/plugin_loader.py`) -/

/-- The call surface of an instantiated renderer plugin: whether it
`hasattr`s a `render` method, and the outcome of calling it — a widget list,
Python `None`, or a raised exception. Widgets themselves are opaque records;
we embed each as a string. -/
structure RendererInstance where
  hasRender : Bool
  render : CtxData → Except String (Option (List String))

/-- A raw `manifest.json`, as parsed: `Option.none` marks an absent key. -/
structure RawRenderer where
  file : Option String
  cls : Option String
  deriving DecidableEq, Repr

structure RawManifest where
  plugin_id : Option String
  version : Option String
  name : Option String
  author : Option String
  renderer : Option RawRenderer
  update_interval : Option Nat
  deriving DecidableEq, Repr

/-- An entry of `PluginLoader.loaded_plugins`:
`{"manifest": ..., "instance": ..., "name": plugin_name}`. -/
structure LoadedPlugin where
  manifest : RawManifest
  inst : RendererInstance
  name : String

/-- One discovered plugin directory: its name, the result of opening and
parsing its `manifest.json` (`.error` = unreadable or invalid JSON), and the
outcome of `load_plugin_class` on it (`Option.none` = missing renderer file,
missing class, or an exception during import/instantiation). -/
structure Candidate where
  name : String
  content : Except String RawManifest
  classLoad : Option RendererInstance

/-- Embeds `PluginLoader.load_manifest`: `None` on a parse failure, on a missing
required field (`plugin_id`, `version`, `name`, `renderer`), or on a
`renderer` section lacking `file` or `class`. -/
def load_manifest (c : Candidate) : Option RawManifest :=
  match c.content with
  | .error _ => Option.none
  | .ok m =>
    if m.plugin_id.isNone ∨ m.version.isNone ∨ m.name.isNone ∨ m.renderer.isNone then
      Option.none
    else
      match m.renderer with
      | Option.none => Option.none
      | some r => if r.file.isNone ∨ r.cls.isNone then Option.none else some m

/-- One iteration of the loop in `PluginLoader.load_all_plugins`, acting on
the `loaded_plugins` accumulator: invalid manifest → skip; `plugin_id`
already loaded → skip; class load failure → skip; otherwise append (dict
insertion order).  The `try/except/continue` around the body means every
failure leaves the accumulator unchanged. -/
def load_plugin_step (acc : List (String × LoadedPlugin)) (c : Candidate) :
    List (String × LoadedPlugin) :=
  match load_manifest c with
  | Option.none => acc
  | some m =>
    match m.plugin_id with
    | Option.none => acc
    | some pid =>
      if (alistGet pid acc).isSome then acc
      else
        match c.classLoad with
        | Option.none => acc
        | some inst => acc ++ [(pid, { manifest := m, inst := inst, name := c.name })]

/-- Embeds `PluginLoader.load_all_plugins`: fold the discovered candidates, in
discovery order, over the loader's initially empty `loaded_plugins` dict. -/
def load_all_plugins (cands : List Candidate) : List (String × LoadedPlugin) :=
  cands.foldl load_plugin_step []

/-- Embeds `PluginLoader.render_plugin_widgets`: `None` when the plugin id is
unknown, when the instance has no `render` method, when `render` raises
(caught), or when `render` itself returns `None`. -/
def render_plugin_widgets (loaded : List (String × LoadedPlugin))
    (plugin_id : String) (context_data : CtxData) : Option (List String) :=
  match alistGet plugin_id loaded with
  | Option.none => Option.none
  | some p =>
    if !p.inst.hasRender then Option.none
    else
      match p.inst.render context_data with
      | .error _ => Option.none
      | .ok ws => ws

/-! ## Router handlers (`src/hq-pi/flask_app/main.py`)

Each handler is embedded as a pure function from the state it reads and
mutates (plus the inbound message, the connection id `sid`, and the current
wall-clock time rendered as a string) to the updated state and the list of
outbound `HubEvent`s, in emission order. -/

/-- The record `handle_collector_register` stores under `request.sid`. -/
def registrationInfo (msg : Msg) (sid now : String) : CollectorInfo :=
  { device_id := msg.device_id
    hostname := msg.hostname
    platform := msg.platform
    connected_at := now
    session_id := sid
    last_heartbeat := Option.none }

/-- Embeds `handle_collector_register`. -/
def handle_collector_register (collectors : List (String × CollectorInfo))
    (msg : Msg) (sid now : String) :
    List (String × CollectorInfo) × List HubEvent :=
  if !validate_message msg then
    (collectors, [HubEvent.errorReply "Invalid registration message" Option.none now])
  else
    let collectors' := alistSet sid (registrationInfo msg sid now) collectors
    (collectors',
     [HubEvent.registrationAck msg.device_id now,
      broadcast_collector_list collectors' now])

/-- Embeds `handle_disconnect`.  The handler never touches the context store; it is
threaded through unchanged to state that frame property. -/
def handle_disconnect (collectors : List (String × CollectorInfo))
    (store : ContextStore) (sid now : String) :
    List (String × CollectorInfo) × ContextStore × List HubEvent :=
  match alistGet sid collectors with
  | some _ =>
    let collectors' := alistRemove sid collectors
    (collectors', store, [broadcast_collector_list collectors' now])
  | Option.none => (collectors, store, [])

/-- The inactivity test in `handle_context_update`:
`context_data is None or (isinstance(context_data, dict) and not
context_data.get('active'))`. -/
def ctx_inactive : CtxData → Bool
  | CtxData.pyNone => true
  | CtxData.pyDict d => !d.activeTruthy
  | CtxData.pyStr _ => false

/-- Embeds `handle_context_update`. -/
def handle_context_update (loaded : List (String × LoadedPlugin))
    (store : ContextStore) (msg : Msg) (now : String) :
    ContextStore × List HubEvent :=
  match msg.device_id, msg.plugin_id with
  | some d, some p =>
    if d = "" ∨ p = "" then (store, [])
    else
      let ts := msg.timestamp.join
      if ctx_inactive msg.data then
        (remove_plugin_context store d p,
         [HubEvent.pluginUpdate d p [] CtxData.pyNone ts])
      else
        let store' := update_context store d p msg.data ts now
        match render_plugin_widgets loaded p msg.data with
        | Option.none => (store', [])
        | some ws => (store', [HubEvent.pluginUpdate d p ws msg.data ts])
  | _, _ => (store, [])

/-- The linear scan over `connected_collectors` shared by
`handle_request_context` and `handle_send_command`:
the first session id whose stored `device_id` equals the requested one. -/
def find_collector_session : List (String × CollectorInfo) → String → Option String
  | [], _ => Option.none
  | (sid, info) :: rest, d =>
    if info.device_id = some d then some sid else find_collector_session rest d

/-- Embeds `handle_send_command`. -/
def handle_send_command (collectors : List (String × CollectorInfo))
    (msg : Msg) (now : String) : List HubEvent :=
  match msg.device_id, msg.plugin_id, msg.command_id with
  | some d, some p, some c =>
    if d = "" ∨ p = "" ∨ c = "" then
      [HubEvent.errorReply "Missing required fields" Option.none now]
    else
      match find_collector_session collectors d with
      | Option.none =>
        [HubEvent.errorReply ("Collector not connected: " ++ d) Option.none now]
      | some sid =>
        [HubEvent.commandToAgent sid
          { device_id := d, plugin_id := p, command_id := c
            args := msg.args.getD [], timestamp := now
            request_id := msg.request_id }]
  | _, _, _ => [HubEvent.errorReply "Missing required fields" Option.none now]

/-! ## Helper lemmas about the router handlers -/

theorem find_collector_session_eq_none (collectors : List (String × CollectorInfo))
    (d : String) (h : ∀ x ∈ collectors, x.2.device_id ≠ some d) :
    find_collector_session collectors d = Option.none := by
  induction collectors with
  | nil => rfl
  | cons hd tl ih =>
    obtain ⟨sid, info⟩ := hd
    have h1 : info.device_id ≠ some d := h (sid, info) (by simp)
    simp only [find_collector_session, if_neg h1]
    exact ih (fun x hx => h x (by simp [hx]))

theorem find_collector_session_mem (collectors : List (String × CollectorInfo))
    (d s : String) (h : find_collector_session collectors d = some s) :
    s ∈ collectors.map Prod.fst := by
  induction collectors with
  | nil => simp [find_collector_session] at h
  | cons hd tl ih =>
    obtain ⟨sid, info⟩ := hd
    by_cases h2 : info.device_id = some d
    · simp only [find_collector_session, if_pos h2, Option.some.injEq] at h
      simp [h]
    · simp only [find_collector_session, if_neg h2] at h
      simp [ih h]

/-! ## Claim C2 — registration validation

`validate_message` (`src/shared/protocol.py`) checks only that the message is
a dict carrying a `type` and a `timestamp` key; it never looks at
`device_id`.  A registration message with `type` and `timestamp` but no
`device_id` is therefore **accepted**: the hub stores a session whose
`device_id` is `None`, acknowledges, and broadcasts — refuting the claim that
a missing `device_id` is rejected. -/

/-- Claim C2, counterexample. A `collector_register` message carrying `type`
and `timestamp` but **no** `device_id` is not answered with an error: the hub
stores a session record (with `device_id = None`), sends a
`registration_ack`, and broadcasts the collector list — contrary to the
claim, the session table does not stay empty and no error reply is sent. -/
theorem claim_C2_counterexample :
    handle_collector_register []
        { type := some (some "collector_register"),
          timestamp := some (some "2025-01-01T00:00:00Z"),
          hostname := some "laptop", platform := some "Linux" }
        "sid-1" "T0"
      = ([("sid-1",
           { device_id := Option.none, hostname := some "laptop",
             platform := some "Linux", connected_at := "T0",
             session_id := "sid-1", last_heartbeat := Option.none })],
         [HubEvent.registrationAck Option.none "T0",
          HubEvent.collectorList
            [{ device_id := Option.none, hostname := some "laptop",
               platform := some "Linux", connected_at := "T0",
               last_heartbeat := "T0", session_id := "sid-1" }] "T0"])
    ∧ (handle_collector_register []
        { type := some (some "collector_register"),
          timestamp := some (some "2025-01-01T00:00:00Z"),
          hostname := some "laptop", platform := some "Linux" }
        "sid-1" "T0").1 ≠ [] :=
  ⟨rfl, by decide⟩

/-- Claim C2, amended. For every inbound registration message, if the message
is missing its `type` or its `timestamp` key, the hub replies with an error
to that connection and does not create or replace a session record; every
message carrying both — `device_id` is *not* checked — leads to a stored
session under the connection's handle (binding whatever `device_id` value the
message carried, possibly `None`), an acknowledgement carrying that
`device_id` and a timestamp, and a broadcast of the updated session
snapshot. -/
theorem claim_C2 (collectors : List (String × CollectorInfo)) (msg : Msg)
    (sid now : String) :
    (¬ validate_message msg = true →
      handle_collector_register collectors msg sid now =
        (collectors,
         [HubEvent.errorReply "Invalid registration message" Option.none now]))
    ∧ (validate_message msg = true →
      alistGet sid (handle_collector_register collectors msg sid now).1
          = some (registrationInfo msg sid now)
      ∧ (handle_collector_register collectors msg sid now).2 =
          [HubEvent.registrationAck msg.device_id now,
           broadcast_collector_list
             (alistSet sid (registrationInfo msg sid now) collectors) now]) := by
  constructor
  · intro h
    simp [handle_collector_register, h]
  · intro h
    constructor
    · simp [handle_collector_register, h, alistGet_set_self]
    · simp [handle_collector_register, h]

/-- Witness for C2: the error branch at a message missing `timestamp`, and
the registration branch at a message carrying `type` and `timestamp`. -/
theorem claim_C2_witness :
    handle_collector_register [] { type := some (some "collector_register") } "s1" "T0"
      = ([], [HubEvent.errorReply "Invalid registration message" Option.none "T0"])
    ∧ alistGet "s1"
        (handle_collector_register []
          { type := some (some "collector_register"),
            timestamp := some (some "T"), device_id := some "laptop-1" }
          "s1" "T0").1
      = some (registrationInfo
          { type := some (some "collector_register"),
            timestamp := some (some "T"), device_id := some "laptop-1" }
          "s1" "T0") :=
  ⟨(claim_C2 [] { type := some (some "collector_register") } "s1" "T0").1 (by decide),
   ((claim_C2 []
      { type := some (some "collector_register"),
        timestamp := some (some "T"), device_id := some "laptop-1" }
      "s1" "T0").2 rfl).1⟩

/-! ## Claim C4 — retraction on null/inactive payload -/

/-- Claim C4. For every `context_update` carrying a non-empty `device_id` and
`plugin_id` whose payload is `None` or marks itself inactive
(a dict whose `active` entry is falsy), the hub removes the stored entry for
that `(device_id, plugin_id)` pair — a subsequent `get` misses — and
broadcasts exactly one retraction `plugin_update` with an empty widget list
and null context; the equation holds for an arbitrary prior store, in
particular when no entry previously existed for the pair. -/
theorem claim_C4 (loaded : List (String × LoadedPlugin)) (store : ContextStore)
    (msg : Msg) (now d p : String)
    (hd : msg.device_id = some d) (hp : msg.plugin_id = some p)
    (hdne : d ≠ "") (hpne : p ≠ "")
    (hinact : ctx_inactive msg.data = true) :
    handle_context_update loaded store msg now =
      (remove_plugin_context store d p,
       [HubEvent.pluginUpdate d p [] CtxData.pyNone msg.timestamp.join])
    ∧ get_context (handle_context_update loaded store msg now).1 d (some p)
        = Option.none := by
  have h1 : handle_context_update loaded store msg now =
      (remove_plugin_context store d p,
       [HubEvent.pluginUpdate d p [] CtxData.pyNone msg.timestamp.join]) := by
    simp [handle_context_update, hd, hp, hdne, hpne, hinact]
  exact ⟨h1, by rw [h1]; exact get_context_remove_self store d p hpne⟩

/-- Witness for C4: an inactive payload for a pair absent from an empty
store still yields the retraction broadcast. -/
theorem claim_C4_witness :
    handle_context_update [] []
        { device_id := some "laptop-1", plugin_id := some "youtube",
          data := CtxData.pyDict { activeTruthy := false, fields := [] },
          timestamp := some (some "T1") }
        "NOW"
      = ([], [HubEvent.pluginUpdate "laptop-1" "youtube" [] CtxData.pyNone (some "T1")]) :=
  (claim_C4 [] []
      { device_id := some "laptop-1", plugin_id := some "youtube",
        data := CtxData.pyDict { activeTruthy := false, fields := [] },
        timestamp := some (some "T1") }
      "NOW" "laptop-1" "youtube" rfl rfl (by decide) (by decide) rfl).1

/-! ## Claim C8 — `send_command` to an unregistered device -/

/-- Claim C8. For every `send_command` request carrying non-empty `device_id`,
`plugin_id` and `command_id` but naming a `device_id` for which no connected
collector is registered, the hub emits exactly one event: an error reply to
the requesting connection; in particular no `commandToAgent` is sent to any
agent connection and nothing is broadcast. -/
theorem claim_C8 (collectors : List (String × CollectorInfo)) (msg : Msg)
    (now d p c : String)
    (hd : msg.device_id = some d) (hp : msg.plugin_id = some p)
    (hc : msg.command_id = some c)
    (hdne : d ≠ "") (hpne : p ≠ "") (hcne : c ≠ "")
    (hfree : ∀ x ∈ collectors, x.2.device_id ≠ some d) :
    handle_send_command collectors msg now =
      [HubEvent.errorReply ("Collector not connected: " ++ d) Option.none now] := by
  have h1 := find_collector_session_eq_none collectors d hfree
  simp [handle_send_command, hd, hp, hc, hdne, hpne, hcne, h1]

/-- Witness for C8: one registered collector for a different device; the
command names an unknown device and yields exactly the single error reply. -/
theorem claim_C8_witness :
    handle_send_command
        [("s1", { device_id := some "laptop-1", hostname := some "h",
                  platform := some "Linux", connected_at := "T0",
                  session_id := "s1", last_heartbeat := Option.none })]
        { device_id := some "desktop-9", plugin_id := some "youtube",
          command_id := some "pause", request_id := some "r1" }
        "NOW"
      = [HubEvent.errorReply "Collector not connected: desktop-9" Option.none "NOW"] :=
  claim_C8
    [("s1", { device_id := some "laptop-1", hostname := some "h",
              platform := some "Linux", connected_at := "T0",
              session_id := "s1", last_heartbeat := Option.none })]
    { device_id := some "desktop-9", plugin_id := some "youtube",
      command_id := some "pause", request_id := some "r1" }
    "NOW" "desktop-9" "youtube" "pause" rfl rfl rfl
    (by decide) (by decide) (by decide) (by decide)

/-! ## Claim C9 — disconnect removes the session, leaves the store alone -/

/-- Claim C9. For every disconnect of a connection whose handle is bound in
`connected_collectors`, the session is removed: the handle no longer resolves
in the table and the device→session scan can never return that handle again;
and the `ContextStore` is left completely unchanged — every stored entry
remains readable exactly as before. -/
theorem claim_C9 (collectors : List (String × CollectorInfo))
    (store : ContextStore) (sid now : String) (info : CollectorInfo)
    (h : alistGet sid collectors = some info) :
    alistGet sid (handle_disconnect collectors store sid now).1 = Option.none
    ∧ (∀ dev, find_collector_session (handle_disconnect collectors store sid now).1 dev
        ≠ some sid)
    ∧ (handle_disconnect collectors store sid now).2.1 = store
    ∧ (∀ (dev : String) (plug : Option String),
        get_context (handle_disconnect collectors store sid now).2.1 dev plug
          = get_context store dev plug) := by
  have h1 : handle_disconnect collectors store sid now =
      (alistRemove sid collectors, store,
       [broadcast_collector_list (alistRemove sid collectors) now]) := by
    simp [handle_disconnect, h]
  rw [h1]
  refine ⟨alistGet_remove_self sid collectors, ?_, rfl, fun dev plug => rfl⟩
  intro dev hcontra
  have h2 : sid ∈ (alistRemove sid collectors).map Prod.fst :=
    find_collector_session_mem _ dev sid hcontra
  have h3 : sid ∉ (alistRemove sid collectors).map Prod.fst :=
    (alistGet_eq_none_iff sid (alistRemove sid collectors)).mp
      (alistGet_remove_self sid collectors)
  exact h3 h2

/-- Witness for C9: disconnecting the only registered collector empties the
table but leaves its stored context readable. -/
theorem claim_C9_witness :
    alistGet "s1"
        (handle_disconnect
          [("s1", { device_id := some "laptop-1", hostname := some "h",
                    platform := some "Linux", connected_at := "T0",
                    session_id := "s1", last_heartbeat := Option.none })]
          [("laptop-1", [("youtube",
            { data := CtxData.pyDict { activeTruthy := true, fields := [] },
              timestamp := "T1" })])]
          "s1" "NOW").1
      = Option.none
    ∧ (handle_disconnect
          [("s1", { device_id := some "laptop-1", hostname := some "h",
                    platform := some "Linux", connected_at := "T0",
                    session_id := "s1", last_heartbeat := Option.none })]
          [("laptop-1", [("youtube",
            { data := CtxData.pyDict { activeTruthy := true, fields := [] },
              timestamp := "T1" })])]
          "s1" "NOW").2.1
      = [("laptop-1", [("youtube",
          { data := CtxData.pyDict { activeTruthy := true, fields := [] },
            timestamp := "T1" })])] :=
  ⟨(claim_C9
      [("s1", { device_id := some "laptop-1", hostname := some "h",
                platform := some "Linux", connected_at := "T0",
                session_id := "s1", last_heartbeat := Option.none })]
      [("laptop-1", [("youtube",
        { data := CtxData.pyDict { activeTruthy := true, fields := [] },
          timestamp := "T1" })])]
      "s1" "NOW" _ rfl).1,
   (claim_C9
      [("s1", { device_id := some "laptop-1", hostname := some "h",
                platform := some "Linux", connected_at := "T0",
                session_id := "s1", last_heartbeat := Option.none })]
      [("laptop-1", [("youtube",
        { data := CtxData.pyDict { activeTruthy := true, fields := [] },
          timestamp := "T1" })])]
      "s1" "NOW" _ rfl).2.2.1⟩

/-! ## Claim C10 — context stored without a matching broadcast -/

/-- Claim C10. For every `context_update` carrying non-empty `device_id` and
`plugin_id` and a dict payload whose `active` field is truthy, the
`ContextStore` entry for the pair is set to the new payload and timestamp
even when the `plugin_id` is not loaded on the hub or the plugin's `render`
capability raises; in those cases the handler emits no events at all — in
particular no `plugin_update` broadcast — so the stored context and the state
shown to display clients diverge. -/
theorem claim_C10 (loaded : List (String × LoadedPlugin)) (store : ContextStore)
    (msg : Msg) (now d p : String) (dd : PyDict)
    (hd : msg.device_id = some d) (hp : msg.plugin_id = some p)
    (hdne : d ≠ "") (hpne : p ≠ "")
    (hdata : msg.data = CtxData.pyDict dd) (hact : dd.activeTruthy = true)
    (hfail : alistGet p loaded = Option.none
      ∨ ∃ lp e, alistGet p loaded = some lp ∧ lp.inst.hasRender = true
          ∧ lp.inst.render (CtxData.pyDict dd) = Except.error e) :
    handle_context_update loaded store msg now =
      (update_context store d p (CtxData.pyDict dd) msg.timestamp.join now, [])
    ∧ get_context (handle_context_update loaded store msg now).1 d (some p)
        = some (Sum.inl ⟨CtxData.pyDict dd, (msg.timestamp.join).getD now⟩) := by
  have hrw : render_plugin_widgets loaded p (CtxData.pyDict dd) = Option.none := by
    rcases hfail with h | ⟨lp, e, h1, h2, h3⟩
    · simp [render_plugin_widgets, h]
    · simp [render_plugin_widgets, h1, h2, h3]
  have h1 : handle_context_update loaded store msg now =
      (update_context store d p (CtxData.pyDict dd) msg.timestamp.join now, []) := by
    simp [handle_context_update, hd, hp, hdne, hpne, hdata, ctx_inactive, hact, hrw]
  exact ⟨h1, by rw [h1]; exact get_context_update_self store d p _ _ now hpne⟩

/-- Witness for C10: an active payload for a plugin id with no loaded
renderer is stored verbatim while nothing is broadcast. -/
theorem claim_C10_witness :
    handle_context_update [] []
        { device_id := some "laptop-1", plugin_id := some "mystery",
          data := CtxData.pyDict { activeTruthy := true, fields := [("k", "v")] },
          timestamp := some (some "T2") }
        "NOW"
      = ([("laptop-1", [("mystery",
          { data := CtxData.pyDict { activeTruthy := true, fields := [("k", "v")] },
            timestamp := "T2" })])], []) :=
  (claim_C10 [] []
      { device_id := some "laptop-1", plugin_id := some "mystery",
        data := CtxData.pyDict { activeTruthy := true, fields := [("k", "v")] },
        timestamp := some (some "T2") }
      "NOW" "laptop-1" "mystery" { activeTruthy := true, fields := [("k", "v")] }
      rfl rfl (by decide) (by decide) rfl rfl (Or.inl rfl)).1

/-! ## Helper lemmas about the plugin loader -/

/-- A load failure of any kind leaves the accumulator untouched. -/
theorem load_plugin_step_skip (acc : List (String × LoadedPlugin)) (c : Candidate)
    (h : load_manifest c = Option.none ∨ c.classLoad = Option.none) :
    load_plugin_step acc c = acc := by
  rcases h with h | h
  · simp [load_plugin_step, h]
  · cases hm : load_manifest c with
    | none => simp [load_plugin_step, hm]
    | some m =>
      cases hp : m.plugin_id with
      | none => simp [load_plugin_step, hm, hp]
      | some pid =>
        by_cases hdup : (alistGet pid acc).isSome
        · simp [load_plugin_step, hm, hp, hdup]
        · simp [load_plugin_step, hm, hp, hdup, h]

/-- An entry already in the accumulator survives one load step unchanged. -/
theorem load_plugin_step_preserves (acc : List (String × LoadedPlugin))
    (c : Candidate) (k : String) (v : LoadedPlugin)
    (h : alistGet k acc = some v) : alistGet k (load_plugin_step acc c) = some v := by
  cases hm : load_manifest c with
  | none => simp [load_plugin_step, hm, h]
  | some m =>
    cases hp : m.plugin_id with
    | none => simp [load_plugin_step, hm, hp, h]
    | some pid =>
      by_cases hdup : (alistGet pid acc).isSome
      · simp [load_plugin_step, hm, hp, hdup, h]
      · cases hcl : c.classLoad with
        | none => simp [load_plugin_step, hm, hp, hdup, hcl, h]
        | some inst =>
          simp [load_plugin_step, hm, hp, hdup, hcl, alistGet_append, h]

/-- An entry already in the accumulator survives the whole fold unchanged. -/
theorem load_plugins_foldl_preserves (cands : List Candidate)
    (acc : List (String × LoadedPlugin)) (k : String) (v : LoadedPlugin)
    (h : alistGet k acc = some v) :
    alistGet k (cands.foldl load_plugin_step acc) = some v := by
  induction cands generalizing acc with
  | nil => exact h
  | cons c rest ih => exact ih _ (load_plugin_step_preserves acc c k v h)

/-- Once a `plugin_id` is in the accumulator, a load step never adds a second
binding for it. -/
theorem load_plugin_step_count (acc : List (String × LoadedPlugin))
    (c : Candidate) (k : String) (h : (alistGet k acc).isSome) :
    ((load_plugin_step acc c).map Prod.fst).count k
      = (acc.map Prod.fst).count k := by
  cases hm : load_manifest c with
  | none => simp [load_plugin_step, hm]
  | some m =>
    cases hp : m.plugin_id with
    | none => simp [load_plugin_step, hm, hp]
    | some pid =>
      by_cases hdup : (alistGet pid acc).isSome
      · simp [load_plugin_step, hm, hp, hdup]
      · cases hcl : c.classLoad with
        | none => simp [load_plugin_step, hm, hp, hdup, hcl]
        | some inst =>
          have hne : k ≠ pid := by
            intro he
            subst he
            exact hdup h
          simp [load_plugin_step, hm, hp, hdup, hcl, List.count_cons, hne]

theorem load_plugins_foldl_count (cands : List Candidate)
    (acc : List (String × LoadedPlugin)) (k : String)
    (h : (alistGet k acc).isSome) :
    (((cands.foldl load_plugin_step acc)).map Prod.fst).count k
      = (acc.map Prod.fst).count k := by
  induction cands generalizing acc with
  | nil => rfl
  | cons c rest ih =>
    have hstep : (alistGet k (load_plugin_step acc c)).isSome := by
      obtain ⟨v, hv⟩ := Option.isSome_iff_exists.mp h
      simp [load_plugin_step_preserves acc c k v hv]
    calc (((c :: rest).foldl load_plugin_step acc).map Prod.fst).count k
        = (((rest).foldl load_plugin_step (load_plugin_step acc c)).map Prod.fst).count k := rfl
      _ = ((load_plugin_step acc c).map Prod.fst).count k := ih _ hstep
      _ = (acc.map Prod.fst).count k := load_plugin_step_count acc c k h

/-- A fully valid candidate whose `plugin_id` is not yet taken is appended. -/
theorem load_plugin_step_valid (acc : List (String × LoadedPlugin))
    (c : Candidate) (m : RawManifest) (pid : String) (inst : RendererInstance)
    (hm : load_manifest c = some m) (hp : m.plugin_id = some pid)
    (hcl : c.classLoad = some inst) (hfree : alistGet pid acc = Option.none) :
    load_plugin_step acc c
      = acc ++ [(pid, { manifest := m, inst := inst, name := c.name })] := by
  simp [load_plugin_step, hm, hp, hcl, hfree]

/-- For every fully valid candidate of a pass, its `plugin_id` ends up bound
in the fold's result (by that candidate or by an earlier one). -/
theorem load_plugins_foldl_mem (cands : List Candidate)
    (acc : List (String × LoadedPlugin)) (c : Candidate) (m : RawManifest)
    (pid : String) (inst : RendererInstance)
    (hc : c ∈ cands) (hm : load_manifest c = some m) (hp : m.plugin_id = some pid)
    (hcl : c.classLoad = some inst) :
    (alistGet pid (cands.foldl load_plugin_step acc)).isSome = true := by
  induction cands generalizing acc with
  | nil => simp at hc
  | cons c0 rest ih =>
    rcases List.mem_cons.mp hc with he | hmem
    · subst he
      by_cases hfree : alistGet pid acc = Option.none
      · have hstep := load_plugin_step_valid acc c m pid inst hm hp hcl hfree
        have hin : alistGet pid (load_plugin_step acc c)
            = some { manifest := m, inst := inst, name := c.name } := by
          rw [hstep, alistGet_append, hfree]
          simp [alistGet]
        simp [List.foldl_cons,
          load_plugins_foldl_preserves rest (load_plugin_step acc c) pid _ hin]
      · obtain ⟨v, hv⟩ := Option.isSome_iff_exists.mp
          (Option.ne_none_iff_isSome.mp hfree)
        have hin := load_plugin_step_preserves acc c pid v hv
        simp [List.foldl_cons,
          load_plugins_foldl_preserves rest (load_plugin_step acc c) pid v hin]
    · exact ih _ hmem

/-! ## Claim C5 — per-plugin failure isolation in `loadAll` -/

/-- Claim C5. In one discovery pass: a candidate whose manifest fails
validation (missing `plugin_id`, `version`, `name`, or a `renderer` binding
with both `file` and `class`; or unparseable), or whose class resolution or
instantiation fails, contributes nothing and changes nothing — the pass
computes exactly the result of the pass without it, so every other valid
plugin is still loaded; and every fully valid candidate of a pass gets its
`plugin_id` bound in the result. -/
theorem claim_C5 (pre post cands : List Candidate) (c c' : Candidate)
    (m : RawManifest) (pid : String) (inst : RendererInstance)
    (hskip : load_manifest c = Option.none ∨ c.classLoad = Option.none)
    (hc' : c' ∈ cands) (hm : load_manifest c' = some m)
    (hp : m.plugin_id = some pid) (hcl : c'.classLoad = some inst) :
    load_all_plugins (pre ++ c :: post) = load_all_plugins (pre ++ post)
    ∧ (alistGet pid (load_all_plugins cands)).isSome = true := by
  constructor
  · unfold load_all_plugins
    rw [List.foldl_append, List.foldl_append, List.foldl_cons,
      load_plugin_step_skip _ c hskip]
  · exact load_plugins_foldl_mem cands [] c' m pid inst hc' hm hp hcl

/-! ## Claim C6 — duplicate `plugin_id`: first discovered wins -/

/-- Claim C6. For every pair of fully valid candidates declaring the same
`plugin_id` in one pass (the id not being claimed by the candidates before
the first), the result binds that `plugin_id` exactly once, to the
first-discovered candidate's manifest and instance; the duplicate is skipped
(and, the embedding being total, nothing is raised). -/
theorem claim_C6 (pre mid post : List Candidate) (c1 c2 : Candidate)
    (m1 m2 : RawManifest) (pid : String) (inst1 inst2 : RendererInstance)
    (h1 : load_manifest c1 = some m1) (h2 : m1.plugin_id = some pid)
    (h3 : c1.classLoad = some inst1)
    (_h4 : load_manifest c2 = some m2) (_h5 : m2.plugin_id = some pid)
    (_h6 : c2.classLoad = some inst2)
    (hpre : alistGet pid (load_all_plugins pre) = Option.none) :
    alistGet pid (load_all_plugins (pre ++ c1 :: (mid ++ c2 :: post)))
      = some { manifest := m1, inst := inst1, name := c1.name }
    ∧ ((load_all_plugins (pre ++ c1 :: (mid ++ c2 :: post))).map Prod.fst).count pid
      = 1 := by
  unfold load_all_plugins at hpre ⊢
  rw [List.foldl_append, List.foldl_cons]
  set A := pre.foldl load_plugin_step [] with hA
  have hstep := load_plugin_step_valid A c1 m1 pid inst1 h1 h2 h3 hpre
  have hin : alistGet pid (load_plugin_step A c1)
      = some { manifest := m1, inst := inst1, name := c1.name } := by
    rw [hstep, alistGet_append, hpre]
    simp [alistGet]
  constructor
  · exact load_plugins_foldl_preserves _ _ pid _ hin
  · have hcount1 : ((load_plugin_step A c1).map Prod.fst).count pid = 1 := by
      rw [hstep]
      have hz : (A.map Prod.fst).count pid = 0 :=
        List.count_eq_zero.mpr ((alistGet_eq_none_iff pid A).mp hpre)
      simp [List.count_append, hz]
    calc (((mid ++ c2 :: post).foldl load_plugin_step
            (load_plugin_step A c1)).map Prod.fst).count pid
        = ((load_plugin_step A c1).map Prod.fst).count pid :=
          load_plugins_foldl_count _ _ pid (by simp [hin])
      _ = 1 := hcount1

/-- Witness for C6: two fully valid candidates both declaring
`plugin_id = "youtube"`; the result binds the id once, to the first. -/
theorem claim_C6_witness :
    alistGet "youtube"
        (load_all_plugins
          ([] ++
            { name := "youtube",
              content := Except.ok
                { plugin_id := some "youtube", version := some "1.0",
                  name := some "YouTube Tracker", author := Option.none,
                  renderer := some { file := some "renderer.py", cls := some "YouTubeRenderer" },
                  update_interval := some 10 },
              classLoad := some { hasRender := true, render := fun _ => Except.ok (some []) } }
            :: ([] ++
              { name := "youtube-copy",
                content := Except.ok
                  { plugin_id := some "youtube", version := some "2.0",
                    name := some "Copy", author := Option.none,
                    renderer := some { file := some "renderer.py", cls := some "CopyRenderer" },
                    update_interval := Option.none },
                classLoad := some { hasRender := false, render := fun _ => Except.ok Option.none } }
              :: [])))
      = some
        { manifest :=
            { plugin_id := some "youtube", version := some "1.0",
              name := some "YouTube Tracker", author := Option.none,
              renderer := some { file := some "renderer.py", cls := some "YouTubeRenderer" },
              update_interval := some 10 },
          inst := { hasRender := true, render := fun _ => Except.ok (some []) },
          name := "youtube" }
    ∧ ((load_all_plugins
          ([] ++
            { name := "youtube",
              content := Except.ok
                { plugin_id := some "youtube", version := some "1.0",
                  name := some "YouTube Tracker", author := Option.none,
                  renderer := some { file := some "renderer.py", cls := some "YouTubeRenderer" },
                  update_interval := some 10 },
              classLoad := some { hasRender := true, render := fun _ => Except.ok (some []) } }
            :: ([] ++
              { name := "youtube-copy",
                content := Except.ok
                  { plugin_id := some "youtube", version := some "2.0",
                    name := some "Copy", author := Option.none,
                    renderer := some { file := some "renderer.py", cls := some "CopyRenderer" },
                    update_interval := Option.none },
                classLoad := some { hasRender := false, render := fun _ => Except.ok Option.none } }
              :: []))).map Prod.fst).count "youtube"
      = 1 :=
  claim_C6 [] [] []
    { name := "youtube",
      content := Except.ok
        { plugin_id := some "youtube", version := some "1.0",
          name := some "YouTube Tracker", author := Option.none,
          renderer := some { file := some "renderer.py", cls := some "YouTubeRenderer" },
          update_interval := some 10 },
      classLoad := some { hasRender := true, render := fun _ => Except.ok (some []) } }
    { name := "youtube-copy",
      content := Except.ok
        { plugin_id := some "youtube", version := some "2.0",
          name := some "Copy", author := Option.none,
          renderer := some { file := some "renderer.py", cls := some "CopyRenderer" },
          update_interval := Option.none },
      classLoad := some { hasRender := false, render := fun _ => Except.ok Option.none } }
    { plugin_id := some "youtube", version := some "1.0",
      name := some "YouTube Tracker", author := Option.none,
      renderer := some { file := some "renderer.py", cls := some "YouTubeRenderer" },
      update_interval := some 10 }
    { plugin_id := some "youtube", version := some "2.0",
      name := some "Copy", author := Option.none,
      renderer := some { file := some "renderer.py", cls := some "CopyRenderer" },
      update_interval := Option.none }
    "youtube"
    { hasRender := true, render := fun _ => Except.ok (some []) }
    { hasRender := false, render := fun _ => Except.ok Option.none }
    rfl rfl rfl rfl rfl rfl rfl

/-- Witness for C5: a candidate with a manifest missing `version` is dropped
while a valid one still loads. -/
theorem claim_C5_witness :
    load_all_plugins
        [{ name := "broken",
           content := Except.ok
             { plugin_id := some "broken", version := Option.none,
               name := some "Broken", author := Option.none,
               renderer := some { file := some "renderer.py", cls := some "R" },
               update_interval := Option.none },
           classLoad := Option.none },
         { name := "youtube",
           content := Except.ok
             { plugin_id := some "youtube", version := some "1.0",
               name := some "YouTube Tracker", author := Option.none,
               renderer := some { file := some "renderer.py", cls := some "YouTubeRenderer" },
               update_interval := some 10 },
           classLoad := some { hasRender := true, render := fun _ => Except.ok (some []) } }]
      = load_all_plugins
        [{ name := "youtube",
           content := Except.ok
             { plugin_id := some "youtube", version := some "1.0",
               name := some "YouTube Tracker", author := Option.none,
               renderer := some { file := some "renderer.py", cls := some "YouTubeRenderer" },
               update_interval := some 10 },
           classLoad := some { hasRender := true, render := fun _ => Except.ok (some []) } }]
    ∧ (alistGet "youtube"
        (load_all_plugins
          [{ name := "broken",
             content := Except.ok
               { plugin_id := some "broken", version := Option.none,
                 name := some "Broken", author := Option.none,
                 renderer := some { file := some "renderer.py", cls := some "R" },
                 update_interval := Option.none },
             classLoad := Option.none },
           { name := "youtube",
             content := Except.ok
               { plugin_id := some "youtube", version := some "1.0",
                 name := some "YouTube Tracker", author := Option.none,
                 renderer := some { file := some "renderer.py", cls := some "YouTubeRenderer" },
                 update_interval := some 10 },
             classLoad := some { hasRender := true, render := fun _ => Except.ok (some []) } }])).isSome
      = true :=
  claim_C5
    [] [{ name := "youtube",
          content := Except.ok
            { plugin_id := some "youtube", version := some "1.0",
              name := some "YouTube Tracker", author := Option.none,
              renderer := some { file := some "renderer.py", cls := some "YouTubeRenderer" },
              update_interval := some 10 },
          classLoad := some { hasRender := true, render := fun _ => Except.ok (some []) } }]
    [{ name := "broken",
       content := Except.ok
         { plugin_id := some "broken", version := Option.none,
           name := some "Broken", author := Option.none,
           renderer := some { file := some "renderer.py", cls := some "R" },
           update_interval := Option.none },
       classLoad := Option.none },
     { name := "youtube",
       content := Except.ok
         { plugin_id := some "youtube", version := some "1.0",
           name := some "YouTube Tracker", author := Option.none,
           renderer := some { file := some "renderer.py", cls := some "YouTubeRenderer" },
           update_interval := some 10 },
       classLoad := some { hasRender := true, render := fun _ => Except.ok (some []) } }]
    { name := "broken",
      content := Except.ok
        { plugin_id := some "broken", version := Option.none,
          name := some "Broken", author := Option.none,
          renderer := some { file := some "renderer.py", cls := some "R" },
          update_interval := Option.none },
      classLoad := Option.none }
    { name := "youtube",
      content := Except.ok
        { plugin_id := some "youtube", version := some "1.0",
          name := some "YouTube Tracker", author := Option.none,
          renderer := some { file := some "renderer.py", cls := some "YouTubeRenderer" },
          update_interval := some 10 },
      classLoad := some { hasRender := true, render := fun _ => Except.ok (some []) } }
    { plugin_id := some "youtube", version := some "1.0",
      name := some "YouTube Tracker", author := Option.none,
      renderer := some { file := some "renderer.py", cls := some "YouTubeRenderer" },
      update_interval := some 10 }
    "youtube"
    { hasRender := true, render := fun _ => Except.ok (some []) }
    (Or.inl rfl) (by simp) rfl rfl rfl

/-! ## ContextAggregator (`src/collector/context_aggregator.py`)

The agent-side aggregator.  Wall-clock instants (`time.time()`) are embedded
as integers; one entry of the tick-time list stands for one iteration of the
`while self.running` loop observing that clock value. -/

/-- A plugin command's structured result dict `{"success": ..., "message": ...}`. -/
structure CmdResult where
  success : Bool
  message : String
  deriving DecidableEq, Repr

/-- The call surface of an instantiated sensor plugin: `hasattr` flags for
`get_context` / `execute_command` and the outcomes of calling them (a raised
exception embedded as `.error`).  `get_context` may depend on when it is
called. -/
structure SensorInstance where
  hasGetContext : Bool
  getContext : Int → Except String CtxData
  hasExecuteCommand : Bool
  executeCommand : String → List (String × String) → Except String CmdResult

/-- An entry of the collector-side loader's `get_all_plugins()` dict as the
aggregator reads it: `plugin_info.get("update_interval", 30)` and
`plugin_info["instance"]`. -/
structure AggPluginInfo where
  update_interval : Option Nat
  inst : SensorInstance

/-- Modelled from the spec: the collector-side plugin loader is not present
under `src/` (only its caller `ContextAggregator` is).  Per §4.2/§6 of the
spec it exposes each loaded sensor plugin to the aggregator as a record whose
`update_interval` is the interval declared in that plugin's manifest
(`update_interval_seconds`), alongside the instantiated sensor object. -/
def collector_load_plugin (m : RawManifest) (sinst : SensorInstance) : AggPluginInfo :=
  { update_interval := m.update_interval, inst := sinst }

/-- Embeds `plugin_info.get("update_interval", 30)`. -/
def interval_of (p : AggPluginInfo) : Int := ((p.update_interval.getD 30 : Nat) : Int)

/-- Embeds `ContextAggregator._collect_and_send`: returns whether the plugin's
`get_context` capability was invoked, and the messages passed to the send
callback (at most one, only when the collected context is not `None`; an
exception inside `get_context` is caught and nothing is sent). -/
def collect_and_send (now : Int) (plugin_id : String) (p : AggPluginInfo) :
    Bool × List (String × CtxData) :=
  if !p.inst.hasGetContext then (false, [])
  else
    match p.inst.getContext now with
    | .error _ => (true, [])
    | .ok CtxData.pyNone => (true, [])
    | .ok d => (true, [(plugin_id, d)])

/-- One pass of the `for plugin_id, plugin_info in plugins.items()` loop of
`ContextAggregator._aggregation_loop` at clock value `now`: for every plugin
whose elapsed time since its recorded last update reaches its interval,
invoke `_collect_and_send` and then set `last_update_times[plugin_id] = now`
— whether or not the collection raised.  Returns the updated
`last_update_times`, the ids polled this tick, and the sent messages. -/
def aggregation_tick (now : Int) :
    List (String × AggPluginInfo) → List (String × Int) →
    List (String × Int) × List String × List (String × CtxData)
  | [], last => (last, [], [])
  | (pid, p) :: rest, last =>
    let lastT := (alistGet pid last).getD 0
    if interval_of p ≤ now - lastT then
      let sends := (collect_and_send now pid p).2
      let r := aggregation_tick now rest (alistSet pid now last)
      (r.1, pid :: r.2.1, sends ++ r.2.2)
    else
      aggregation_tick now rest last

/-- The aggregation loop observed at the clock values `ts`, started from the
`last_update_times` map `last`: the list of `(tick time, plugin id)` poll
events, in order. -/
def aggregation_run (plugins : List (String × AggPluginInfo)) :
    List Int → List (String × Int) → List (Int × String)
  | [], _ => []
  | t :: ts, last =>
    let r := aggregation_tick t plugins last
    r.2.1.map (fun pid => (t, pid)) ++ aggregation_run plugins ts r.1

/-- The times at which a given plugin was polled during a run. -/
def pollTimes (pid : String) (run : List (Int × String)) : List Int :=
  (run.filter (fun x => x.2 == pid)).map Prod.fst

/-- Embeds `ContextAggregator.request_immediate_update` in its single-plugin branch:
bypass the interval check, collect now, and reset the plugin's
`last_update_times` entry to now. -/
def request_immediate_update_one (loader : List (String × AggPluginInfo))
    (last : List (String × Int)) (plugin_id : String) (now : Int) :
    List (String × Int) × List (String × CtxData) :=
  match alistGet plugin_id loader with
  | Option.none => (last, [])
  | some p => (alistSet plugin_id now last, (collect_and_send now plugin_id p).2)

/-- Embeds `ContextAggregator.execute_plugin_command`: structured failure results
for an unknown plugin, a plugin without command support, or an exception
inside the command; on a successful result, an immediate update for that
plugin. -/
def execute_plugin_command (loader : List (String × AggPluginInfo))
    (last : List (String × Int)) (plugin_id command_id : String)
    (args : List (String × String)) (now : Int) :
    CmdResult × List (String × Int) × List (String × CtxData) :=
  match alistGet plugin_id loader with
  | Option.none =>
    ({ success := false, message := "Plugin not found: " ++ plugin_id }, last, [])
  | some p =>
    if !p.inst.hasExecuteCommand then
      ({ success := false,
         message := "Plugin " ++ plugin_id ++ " does not support commands" }, last, [])
    else
      match p.inst.executeCommand command_id args with
      | .error e =>
        ({ success := false, message := "Error executing command: " ++ e }, last, [])
      | .ok r =>
        if r.success then
          let u := request_immediate_update_one loader last plugin_id now
          (r, u.1, u.2)
        else (r, last, [])

/-! ## The YouTube sensor plugin's `get_context`
(`src/collector/plugins/youtube/collector.py`)

Plugin state: `youtube_start_time` and `last_video_info`.  The whole body is
wrapped in `try/except`; `window` is the outcome of the window-detection and
title-parsing attempt (`.error` = an exception anywhere in the body), and
`parse` stands for `_parse_window_title` plus the construction of the context
dict (whose `active` field is `True`). -/

structure YTState where
  youtube_start_time : Option Int
  last_video_info : Option PyDict
  deriving DecidableEq, Repr

def yt_last_known : Option PyDict → CtxData
  | some d => CtxData.pyDict d
  | Option.none => CtxData.pyNone

/-- Embeds `YouTubeCollector.get_context`: on an exception, return
`self.last_video_info` — the last known state; on "no YouTube window", reset
the state and return `None`; otherwise build and cache the context dict. -/
def yt_get_context (st : YTState) (window : Except String (Option String))
    (nowT : Int) (parse : String → Int → PyDict) : YTState × CtxData :=
  match window with
  | .error _ => (st, yt_last_known st.last_video_info)
  | .ok Option.none =>
    ({ youtube_start_time := Option.none, last_video_info := Option.none },
     CtxData.pyNone)
  | .ok (some title) =>
    let start := st.youtube_start_time.getD nowT
    let ctx := parse title (nowT - start)
    ({ youtube_start_time := some start, last_video_info := some ctx },
     CtxData.pyDict ctx)

/-! ## Helper lemmas about the aggregation loop -/

theorem interval_of_nonneg (p : AggPluginInfo) : (0 : Int) ≤ interval_of p :=
  Int.natCast_nonneg _

/-- A plugin id that is not a key of the plugins dict is neither polled nor
does its `last_update_times` entry change. -/
theorem aggregation_tick_not_mem (t : Int) (plugins : List (String × AggPluginInfo))
    (last : List (String × Int)) (pid : String)
    (h : pid ∉ plugins.map Prod.fst) :
    alistGet pid (aggregation_tick t plugins last).1 = alistGet pid last
    ∧ pid ∉ (aggregation_tick t plugins last).2.1 := by
  induction plugins generalizing last with
  | nil => exact ⟨rfl, by simp [aggregation_tick]⟩
  | cons hd rest ih =>
    obtain ⟨k, q⟩ := hd
    simp only [List.map_cons, List.mem_cons, not_or] at h
    obtain ⟨hk, hrest⟩ := h
    by_cases hg : interval_of q ≤ t - ((alistGet k last).getD 0)
    · have hih := ih (alistSet k t last) hrest
      constructor
      · simp only [aggregation_tick, if_pos hg]
        rw [hih.1, alistGet_set_ne pid k t last (fun he => hk he.symm)]
      · simp only [aggregation_tick, if_pos hg, List.mem_cons, not_or]
        exact ⟨hk, hih.2⟩
    · have hih := ih last hrest
      constructor
      · simp only [aggregation_tick, if_neg hg]
        exact hih.1
      · simp only [aggregation_tick, if_neg hg]
        exact hih.2

/-- For a plugin of the dict (keys unique): it is polled in a tick exactly
when its elapsed time reaches its interval, and its `last_update_times`
entry afterwards is the tick time if polled, unchanged otherwise — whatever
the outcome of the collection call. -/
theorem aggregation_tick_pid (t : Int) (plugins : List (String × AggPluginInfo))
    (last : List (String × Int)) (pid : String) (pinfo : AggPluginInfo)
    (hnd : (plugins.map Prod.fst).Nodup)
    (hmem : alistGet pid plugins = some pinfo) :
    (pid ∈ (aggregation_tick t plugins last).2.1
      ↔ interval_of pinfo ≤ t - ((alistGet pid last).getD 0))
    ∧ alistGet pid (aggregation_tick t plugins last).1 =
        (if interval_of pinfo ≤ t - ((alistGet pid last).getD 0)
         then some t else alistGet pid last) := by
  induction plugins generalizing last with
  | nil => simp [alistGet] at hmem
  | cons hd rest ih =>
    obtain ⟨k, q⟩ := hd
    simp only [List.map_cons, List.nodup_cons] at hnd
    by_cases hk : k = pid
    · subst hk
      have hq : q = pinfo := by simpa [alistGet] using hmem
      subst hq
      by_cases hg : interval_of q ≤ t - ((alistGet k last).getD 0)
      · have hnm := aggregation_tick_not_mem t rest (alistSet k t last) k hnd.1
        constructor
        · simp only [aggregation_tick, if_pos hg, List.mem_cons]
          simp [hg]
        · simp only [aggregation_tick, if_pos hg]
          rw [hnm.1, alistGet_set_self]
      · have hnm := aggregation_tick_not_mem t rest last k hnd.1
        constructor
        · simp only [aggregation_tick, if_neg hg]
          simp [hnm.2, hg]
        · simp only [aggregation_tick, if_neg hg]
          rw [hnm.1]
    · have hmem' : alistGet pid rest = some pinfo := by simpa [alistGet, hk] using hmem
      by_cases hg : interval_of q ≤ t - ((alistGet k last).getD 0)
      · have hset : alistGet pid (alistSet k t last) = alistGet pid last :=
          alistGet_set_ne pid k t last hk
        have hih := ih (alistSet k t last) hnd.2 hmem'
        rw [hset] at hih
        constructor
        · simp only [aggregation_tick, if_pos hg, List.mem_cons]
          constructor
          · rintro (he | hm)
            · exact absurd he.symm hk
            · exact hih.1.mp hm
          · intro hcond
            exact Or.inr (hih.1.mpr hcond)
        · simp only [aggregation_tick, if_pos hg]
          exact hih.2
      · have hih := ih last hnd.2 hmem'
        constructor
        · simp only [aggregation_tick, if_neg hg]
          exact hih.1
        · simp only [aggregation_tick, if_neg hg]
          exact hih.2

/-- The polled ids of a tick are drawn, in order and without repetition, from
the plugins dict's keys. -/
theorem aggregation_tick_polled_sublist (t : Int)
    (plugins : List (String × AggPluginInfo)) (last : List (String × Int)) :
    (aggregation_tick t plugins last).2.1.Sublist (plugins.map Prod.fst) := by
  induction plugins generalizing last with
  | nil => simp [aggregation_tick]
  | cons hd rest ih =>
    obtain ⟨k, q⟩ := hd
    by_cases hg : interval_of q ≤ t - ((alistGet k last).getD 0)
    · simp only [aggregation_tick, if_pos hg, List.map_cons]
      exact (ih (alistSet k t last)).cons₂ k
    · simp only [aggregation_tick, if_neg hg, List.map_cons]
      exact (ih last).cons k

theorem pollTimes_append (pid : String) (a b : List (Int × String)) :
    pollTimes pid (a ++ b) = pollTimes pid a ++ pollTimes pid b := by
  simp [pollTimes, List.filter_append]

theorem pollTimes_tickmap (pid : String) (t : Int) (polled : List String) :
    pollTimes pid (polled.map (fun p => (t, p)))
      = (polled.filter (fun p => p == pid)).map (fun _ => t) := by
  induction polled with
  | nil => rfl
  | cons p rest ih =>
    by_cases hp : p == pid <;>
      simp only [List.map_cons, pollTimes, List.filter_cons, hp] <;>
      simpa [pollTimes] using ih

/-- In a duplicate-free list, filtering for one member keeps exactly it. -/
theorem nodup_filter_beq (l : List String) (a : String) (hn : l.Nodup)
    (ha : a ∈ l) : l.filter (fun x => x == a) = [a] := by
  induction l with
  | nil => simp at ha
  | cons b rest ih =>
    simp only [List.nodup_cons] at hn
    by_cases hb : b = a
    · subst hb
      have hnil : rest.filter (fun x => x == b) = [] := by
        refine List.filter_eq_nil_iff.mpr (fun x hx => ?_)
        simp only [beq_iff_eq]
        intro he
        subst he
        exact hn.1 hx
      simp [List.filter_cons, hnil]
    · have ha' : a ∈ rest := by
        rcases List.mem_cons.mp ha with h | h
        · exact absurd h.symm hb
        · exact h
      have hbeq : (b == a) = false := beq_eq_false_iff_ne.mpr hb
      simp only [List.filter_cons, hbeq, cond_false]
      exact ih hn.2 ha'

/-- Once a plugin has been polled at time `tp`, every later poll of it in the
run happens at a time at least `tp + interval`. -/
theorem aggregation_run_poll_lb (plugins : List (String × AggPluginInfo))
    (pid : String) (pinfo : AggPluginInfo)
    (hnd : (plugins.map Prod.fst).Nodup) (hmem : alistGet pid plugins = some pinfo)
    (ts : List Int) :
    ∀ (last : List (String × Int)) (tp : Int), alistGet pid last = some tp →
      ∀ t' ∈ pollTimes pid (aggregation_run plugins ts last),
        tp + interval_of pinfo ≤ t' := by
  induction ts with
  | nil =>
    intro last tp _ t' ht'
    simp [aggregation_run, pollTimes] at ht'
  | cons t ts ih =>
    intro last tp hlast t' ht'
    have hI := interval_of_nonneg pinfo
    have htick := aggregation_tick_pid t plugins last pid pinfo hnd hmem
    rw [hlast] at htick
    simp only [Option.getD_some] at htick
    simp only [aggregation_run] at ht'
    rw [pollTimes_append] at ht'
    rcases List.mem_append.mp ht' with hA | hB
    · rw [pollTimes_tickmap] at hA
      obtain ⟨x, hx, hxt⟩ := List.mem_map.mp hA
      have hpol : pid ∈ (aggregation_tick t plugins last).2.1 := by
        have hx' := List.of_mem_filter hx
        have : x = pid := by simpa using hx'
        subst this
        exact List.mem_of_mem_filter hx
      have hg := htick.1.mp hpol
      subst hxt
      linarith
    · by_cases hg : interval_of pinfo ≤ t - tp
      · have hlast' : alistGet pid (aggregation_tick t plugins last).1 = some t := by
          rw [htick.2, if_pos hg]
        have := ih (aggregation_tick t plugins last).1 t hlast' t' hB
        linarith
      · have hlast' : alistGet pid (aggregation_tick t plugins last).1 = some tp := by
          rw [htick.2, if_neg hg]
        exact ih (aggregation_tick t plugins last).1 tp hlast' t' hB

/-- The successive poll times of any one plugin in a run are pairwise
separated by at least its interval. -/
theorem aggregation_run_pairwise (plugins : List (String × AggPluginInfo))
    (pid : String) (pinfo : AggPluginInfo)
    (hnd : (plugins.map Prod.fst).Nodup) (hmem : alistGet pid plugins = some pinfo)
    (ts : List Int) :
    ∀ last, List.Pairwise (fun a b => a + interval_of pinfo ≤ b)
      (pollTimes pid (aggregation_run plugins ts last)) := by
  induction ts with
  | nil => intro last; simp [aggregation_run, pollTimes]
  | cons t ts ih =>
    intro last
    have htick := aggregation_tick_pid t plugins last pid pinfo hnd hmem
    have hsub := aggregation_tick_polled_sublist t plugins last
    simp only [aggregation_run]
    rw [pollTimes_append, pollTimes_tickmap]
    by_cases hg : interval_of pinfo ≤ t - ((alistGet pid last).getD 0)
    · have hpol : pid ∈ (aggregation_tick t plugins last).2.1 := htick.1.mpr hg
      have hpnd : (aggregation_tick t plugins last).2.1.Nodup := hnd.sublist hsub
      rw [nodup_filter_beq _ pid hpnd hpol]
      simp only [List.map_cons, List.map_nil, List.singleton_append]
      refine List.pairwise_cons.mpr ⟨?_, ih (aggregation_tick t plugins last).1⟩
      intro t' ht'
      have hlast' : alistGet pid (aggregation_tick t plugins last).1 = some t := by
        rw [htick.2, if_pos hg]
      exact aggregation_run_poll_lb plugins pid pinfo hnd hmem ts
        (aggregation_tick t plugins last).1 t hlast' t' ht'
    · have hpol : pid ∉ (aggregation_tick t plugins last).2.1 :=
        fun hc => hg (htick.1.mp hc)
      have hnil : (aggregation_tick t plugins last).2.1.filter (fun x => x == pid)
          = [] := by
        refine List.filter_eq_nil_iff.mpr (fun x hx => ?_)
        simp only [beq_iff_eq]
        intro he
        subst he
        exact hpol hx
      rw [hnil]
      simpa using ih (aggregation_tick t plugins last).1

/-! ## Claim C1 — poll cadence of the aggregation loop -/

/-- Claim C1. For a loaded sensor plugin (exposed by the spec-modelled
collector-side loader `collector_load_plugin`, so that its recorded
`update_interval` is the one declared in its manifest) inside a plugins dict
with unique keys: (1) over any run of the aggregation loop, from any
`last_update_times` state, the times at which that plugin is polled are
pairwise at least its declared interval apart — it is never polled twice
within less than the interval; (2) at any tick whose time has reached the
recorded last poll time plus the interval, the plugin *is* polled at that
tick; and (3) every poll invokes the plugin's collection capability
(`get_context`).  The sensor instance — in particular whether its previous
collection raised — is arbitrary: polling and re-polling are independent of
collection outcomes. -/
theorem claim_C1 (plugins : List (String × AggPluginInfo)) (pid : String)
    (m : RawManifest) (sinst : SensorInstance)
    (last : List (String × Int)) (t : Int) (ts : List Int)
    (hnd : (plugins.map Prod.fst).Nodup)
    (hmem : alistGet pid plugins = some (collector_load_plugin m sinst))
    (hget : sinst.hasGetContext = true) :
    List.Pairwise
      (fun a b => a + ((m.update_interval.getD 30 : Nat) : Int) ≤ b)
      (pollTimes pid (aggregation_run plugins (t :: ts) last))
    ∧ (((m.update_interval.getD 30 : Nat) : Int) ≤ t - ((alistGet pid last).getD 0) →
        (t, pid) ∈ aggregation_run plugins (t :: ts) last)
    ∧ (∀ t', (collect_and_send t' pid (collector_load_plugin m sinst)).1 = true) := by
  have hI : interval_of (collector_load_plugin m sinst)
      = ((m.update_interval.getD 30 : Nat) : Int) := rfl
  refine ⟨?_, ?_, ?_⟩
  · have := aggregation_run_pairwise plugins pid (collector_load_plugin m sinst)
      hnd hmem (t :: ts) last
    rw [hI] at this
    exact this
  · intro hdue
    have htick := aggregation_tick_pid t plugins last pid
      (collector_load_plugin m sinst) hnd hmem
    have hpol : pid ∈ (aggregation_tick t plugins last).2.1 := by
      apply htick.1.mpr
      rw [hI]
      exact hdue
    simp only [aggregation_run]
    refine List.mem_append_left _ ?_
    exact List.mem_map.mpr ⟨pid, hpol, rfl⟩
  · intro t'
    simp only [collect_and_send, collector_load_plugin, hget, Bool.not_true,
      Bool.false_eq_true, if_false]
    cases sinst.getContext t' with
    | error e => rfl
    | ok d => cases d <;> rfl

/-- Witness sensor for C1: declared interval 5, collection always raising. -/
def failingSensor : SensorInstance :=
  { hasGetContext := true
    getContext := fun _ => Except.error "window detection failed"
    hasExecuteCommand := false
    executeCommand := fun _ _ => Except.error "unsupported" }

/-- Witness manifest for C1: declares `update_interval = 5`. -/
def ytManifest5 : RawManifest :=
  { plugin_id := some "youtube", version := some "1.0",
    name := some "YouTube Tracker", author := Option.none,
    renderer := some { file := some "renderer.py", cls := some "YouTubeRenderer" },
    update_interval := some 5 }

/-- Witness for C1: one always-raising plugin with interval 5, observed at
times 100, 103, 106: its polls stay ≥ 5 apart, and the first tick (due,
since the map starts empty) does poll it. -/
theorem claim_C1_witness :
    List.Pairwise
      (fun a b => a + ((((ytManifest5.update_interval).getD 30 : Nat) : Int)) ≤ b)
      (pollTimes "youtube"
        (aggregation_run [("youtube", collector_load_plugin ytManifest5 failingSensor)]
          (100 :: [103, 106]) []))
    ∧ (100, "youtube") ∈
        aggregation_run [("youtube", collector_load_plugin ytManifest5 failingSensor)]
          (100 :: [103, 106]) [] :=
  ⟨(claim_C1 [("youtube", collector_load_plugin ytManifest5 failingSensor)]
      "youtube" ytManifest5 failingSensor [] 100 [103, 106]
      (by simp) rfl rfl).1,
   (claim_C1 [("youtube", collector_load_plugin ytManifest5 failingSensor)]
      "youtube" ytManifest5 failingSensor [] 100 [103, 106]
      (by simp) rfl rfl).2.1 (by decide)⟩

/-! ## Claim C3 — plugin exceptions are contained at their call sites -/

/-- Claim C3. Every exception raised inside a plugin capability is caught at
its call site, and the embedding of each call site is a total function — no
exception ever propagates to crash the aggregator tick or the router:
(1) a `render` that raises makes `render_plugin_widgets` return `None`
(caught; the caller then simply skips the broadcast);
(2) a `get_context` that raises makes `_collect_and_send` return normally,
having invoked the capability and sent nothing;
(3) an `execute_command` that raises makes `execute_plugin_command` return
the structured failure result `{"success": False, "message": "Error
executing command: ..."}`;
(4) at the collect layer that does retain a last known good result — the
sensor plugin's own `get_context` (YouTube collector) — an exception makes
it return exactly that cached last known good result, with its state
unchanged. -/
theorem claim_C3
    (loadedR : List (String × LoadedPlugin)) (pid : String) (lp : LoadedPlugin)
    (ctx : CtxData) (e₁ : String)
    (ap : AggPluginInfo) (pid₂ : String) (t : Int) (e₂ : String)
    (aggr : List (String × AggPluginInfo)) (ap₂ : AggPluginInfo) (pid₃ : String)
    (last : List (String × Int)) (cmd : String) (args : List (String × String))
    (e₃ : String) (t₂ : Int)
    (st : YTState) (dd : PyDict) (e₄ : String) (nowT : Int)
    (parse : String → Int → PyDict)
    (hR1 : alistGet pid loadedR = some lp) (hR2 : lp.inst.hasRender = true)
    (hR3 : lp.inst.render ctx = Except.error e₁)
    (hC1 : ap.inst.hasGetContext = true)
    (hC2 : ap.inst.getContext t = Except.error e₂)
    (hX1 : alistGet pid₃ aggr = some ap₂) (hX2 : ap₂.inst.hasExecuteCommand = true)
    (hX3 : ap₂.inst.executeCommand cmd args = Except.error e₃)
    (hY : st.last_video_info = some dd) :
    render_plugin_widgets loadedR pid ctx = Option.none
    ∧ collect_and_send t pid₂ ap = (true, [])
    ∧ (execute_plugin_command aggr last pid₃ cmd args t₂).1
        = { success := false, message := "Error executing command: " ++ e₃ }
    ∧ yt_get_context st (Except.error e₄) nowT parse = (st, CtxData.pyDict dd) := by
  refine ⟨?_, ?_, ?_, ?_⟩
  · simp [render_plugin_widgets, hR1, hR2, hR3]
  · simp [collect_and_send, hC1, hC2]
  · simp [execute_plugin_command, hX1, hX2, hX3]
  · simp [yt_get_context, yt_last_known, hY]

/-- Witness renderer for C3: `render` always raises. -/
def crashingRenderer : LoadedPlugin :=
  { manifest := ytManifest5
    inst := { hasRender := true, render := fun _ => Except.error "render failed" }
    name := "youtube" }

/-- Witness sensor for C3: `get_context` and `execute_command` both raise. -/
def crashingCommandSensor : SensorInstance :=
  { hasGetContext := true
    getContext := fun _ => Except.error "collect failed"
    hasExecuteCommand := true
    executeCommand := fun _ _ => Except.error "command blew up" }

/-- Witness for C3: each call site applied to a concrete raising plugin. -/
theorem claim_C3_witness :
    render_plugin_widgets [("youtube", crashingRenderer)] "youtube"
        (CtxData.pyDict { activeTruthy := true, fields := [] }) = Option.none
    ∧ collect_and_send 100 "youtube" (collector_load_plugin ytManifest5 failingSensor)
        = (true, [])
    ∧ (execute_plugin_command
          [("youtube", collector_load_plugin ytManifest5 crashingCommandSensor)]
          [] "youtube" "pause" [] 100).1
        = { success := false, message := "Error executing command: " ++ "command blew up" }
    ∧ yt_get_context
        { youtube_start_time := some 50,
          last_video_info := some { activeTruthy := true, fields := [("video_title", "X")] } }
        (Except.error "oops") 120 (fun _ _ => { activeTruthy := true, fields := [] })
      = ({ youtube_start_time := some 50,
           last_video_info := some { activeTruthy := true, fields := [("video_title", "X")] } },
         CtxData.pyDict { activeTruthy := true, fields := [("video_title", "X")] }) :=
  claim_C3 [("youtube", crashingRenderer)] "youtube" crashingRenderer
    (CtxData.pyDict { activeTruthy := true, fields := [] }) "render failed"
    (collector_load_plugin ytManifest5 failingSensor) "youtube" 100
    "window detection failed"
    [("youtube", collector_load_plugin ytManifest5 crashingCommandSensor)]
    (collector_load_plugin ytManifest5 crashingCommandSensor) "youtube"
    [] "pause" [] "command blew up" 100
    { youtube_start_time := some 50,
      last_video_info := some { activeTruthy := true, fields := [("video_title", "X")] } }
    { activeTruthy := true, fields := [("video_title", "X")] }
    "oops" 120 (fun _ _ => { activeTruthy := true, fields := [] })
    rfl rfl rfl rfl rfl rfl rfl rfl rfl

end Donk
